import Mathlib

/-!
Shallow embedding of the price-scraper engine in `src/main.py`
(class `PriceScraperBot`): extraction (`get_price_from_url`), the round
runner (`scrape_all_sites`), persistence (`save_data`), the scheduler loop
(`run_bot`) and the start/stop lifecycle (`start`, `stop`).

Modelling conventions:
- A fetched and parsed document (`BeautifulSoup(response.text)`) is a list of
  elements in document order; `select_one` returns the first match.
- An element carries its `class` attribute, its `id` attribute and its text.
  Elements are modelled with a single text node, so
  `get_text(strip=True)` is `String.trim` of that text.
- `requests.get` + `raise_for_status` are modelled as an environment mapping
  each URL to either a parsed document or a `FetchError`.
- The dataset file is a `FileState`: absent, a readable CSV holding a table,
  or a file whose `pd.read_csv` raises something other than
  `FileNotFoundError` (permissions, malformed contents, ...).  CSV
  serialization is modelled as the identity on string-valued tables
  (`to_csv` then `read_csv` returns the same table).
- Wall-clock time (`datetime.now()`) is an abstract clock indexed by the
  loop iteration; `time.sleep(10)` slices are counted, not timed.
-/

namespace PriceScraper

/-- CSS selectors used by the program: an explicit selector from a target, or
one of the four default selectors `.price`, `#price`, `[class*="price"]`,
`[id*="price"]` from `get_price_from_url`. -/
inductive Selector where
  | classIs (c : String)
  | idIs (i : String)
  | classContains (s : String)
  | idContains (s : String)
deriving DecidableEq, Repr

/-- One element of a parsed document: its `class` attribute (if present), its
`id` attribute (if present), and its text content. -/
structure Element where
  classAttr : Option String
  idAttr : Option String
  text : String
deriving DecidableEq, Repr

/-- A parsed document: its elements in document order. -/
abbrev Doc := List Element

/-- Whether the first list is a prefix of the second. -/
def isPrefixChars : List Char → List Char → Bool
  | [], _ => true
  | _ :: _, [] => false
  | p :: ps, c :: cs => p == c && isPrefixChars ps cs

/-- Whether `pat` occurs as a contiguous sublist of `s`. -/
def containsChars (pat : List Char) : List Char → Bool
  | [] => pat.isEmpty
  | c :: rest => isPrefixChars pat (c :: rest) || containsChars pat rest

/-- Substring test, modelling the CSS `[attr*=value]` operator: `value`
occurs somewhere in the attribute string. -/
def containsSubstr (s pat : String) : Bool :=
  containsChars pat.data s.data

/-- Split a character list into maximal whitespace-free words. -/
def wordsAux : List Char → List Char → List String
  | [], acc => if acc.isEmpty then [] else [⟨acc.reverse⟩]
  | c :: rest, acc =>
    if c.isWhitespace then
      if acc.isEmpty then wordsAux rest [] else ⟨acc.reverse⟩ :: wordsAux rest []
    else wordsAux rest (c :: acc)

/-- The `class` attribute split into class names, as html.parser does
(whitespace-separated multi-valued attribute). -/
def classList (e : Element) : List String :=
  match e.classAttr with
  | some a => wordsAux a.data []
  | none => []

/-- Whether an element matches a selector, following CSS semantics:
`.c` means the class list contains `c`; `#i` means the id equals `i`;
`[class*=s]` / `[id*=s]` mean the raw attribute contains `s`. -/
def matchesSel (sel : Selector) (e : Element) : Bool :=
  match sel with
  | .classIs c => (classList e).contains c
  | .idIs i => e.idAttr == some i
  | .classContains s =>
    match e.classAttr with
    | some a => containsSubstr a s
    | none => false
  | .idContains s =>
    match e.idAttr with
    | some a => containsSubstr a s
    | none => false

/-- `soup.select_one(sel)`: the first element of the document matching the
selector, if any. -/
def selectOne (doc : Doc) (sel : Selector) : Option Element :=
  doc.find? (matchesSel sel)

/-- Leading and trailing whitespace removed from a string (an executable
spelling of `String.trim` over the character list). -/
def strTrim (s : String) : String :=
  ⟨((s.data.dropWhile Char.isWhitespace).reverse.dropWhile Char.isWhitespace).reverse⟩

/-- `tag.get_text(strip=True)` on an element with a single text node:
the text with surrounding whitespace stripped. -/
def getTextStrip (e : Element) : String :=
  strTrim e.text

/-- Failures of `requests.get(url, ...)` / `response.raise_for_status()`:
transport-level errors, or a non-success HTTP status. -/
inductive FetchError where
  | transport (detail : String)
  | httpStatus (code : Nat)
deriving DecidableEq, Repr

/-- Exceptions raised inside `get_price_from_url`: a fetch failure, the
`ValueError` for a supplied selector with no match, or the `ValueError`
when no default selector matches. -/
inductive ScrapeError where
  | fetch (e : FetchError)
  | notFound (sel : Selector)
  | noDefaultMatch
deriving DecidableEq, Repr

/-- The network, as `get_price_from_url` observes it: each URL either yields
a parsed document or raises a fetch error. -/
structure FetchEnv where
  fetch : String → Except FetchError Doc

/-- The `common_selectors` list of `get_price_from_url`, in source order:
`['.price', '#price', '[class*="price"]', '[id*="price"]']`. -/
def common_selectors : List Selector :=
  [.classIs "price", .idIs "price", .classContains "price", .idContains "price"]

/-- The default-selector loop of `get_price_from_url`: try each selector with
`select_one`, returning the first element found. -/
def tryDefaults (doc : Doc) : List Selector → Option Element
  | [] => none
  | sel :: rest =>
    match selectOne doc sel with
    | some tag => some tag
    | none => tryDefaults doc rest

/-- `PriceScraperBot.get_price_from_url(url, selector)`: fetch the page
(raising on transport failure or bad status), then either apply the supplied
selector or fall back to the default-selector list. -/
def get_price_from_url (env : FetchEnv) (url : String) (selector : Option Selector) :
    Except ScrapeError String :=
  match env.fetch url with
  | .error e => .error (.fetch e)
  | .ok soup =>
    match selector with
    | some sel =>
      match selectOne soup sel with
      | some price_tag => .ok (getTextStrip price_tag)
      | none => .error (.notFound sel)
    | none =>
      match tryDefaults soup common_selectors with
      | some price_tag => .ok (getTextStrip price_tag)
      | none => .error .noDefaultMatch

/-- One configured target: `(url, selector)` as stored in `self.sites`. -/
structure Target where
  url : String
  selector : Option Selector
deriving DecidableEq, Repr

/-- One row appended by `scrape_all_sites`:
`{"url": url, "price": price, "timestamp": datetime.now()}`.  The timestamp
is an opaque rendered instant. -/
structure Observation where
  url : String
  price : String
  timestamp : String
deriving DecidableEq, Repr

/-- Human-readable text of a `ScrapeError`, as `str(e)` would render it
(message fidelity is not modelled beyond identifying the failure kind). -/
def errMsg : ScrapeError → String
  | .fetch (.transport d) => d
  | .fetch (.httpStatus c) => "HTTP status " ++ toString c
  | .notFound _ => "Price element not found with selector"
  | .noDefaultMatch => "Price element not found with default selectors"

/-- The loop body of `scrape_all_sites`, iterating `self.sites` from loop
index `i` (the index feeds the abstract wall clock and the `self.running`
check done before each target).  Returns the observations appended and the
log lines emitted, in order. -/
def scrapeLoop (env : FetchEnv) (running : Nat → Bool) (clock : Nat → String) :
    List Target → Nat → List Observation × List String
  | [], _ => ([], [])
  | t :: rest, i =>
    if !(running i) then ([], [])
    else
      match get_price_from_url env t.url t.selector with
      | .ok price =>
        let r := scrapeLoop env running clock rest (i + 1)
        (⟨t.url, price, clock i⟩ :: r.1,
          ("Scraping " ++ t.url ++ " ...") :: ("Price found: " ++ price) :: r.2)
      | .error e =>
        let r := scrapeLoop env running clock rest (i + 1)
        (r.1,
          ("Scraping " ++ t.url ++ " ...") ::
            ("Error scraping " ++ t.url ++ ": " ++ errMsg e) :: r.2)

/-- `PriceScraperBot.scrape_all_sites`: resets `self.data` to the empty list
and runs one pass over the target list, collecting successful observations
and continuing past failures. -/
def scrape_all_sites (env : FetchEnv) (running : Nat → Bool) (clock : Nat → String)
    (sites : List Target) : List Observation × List String :=
  scrapeLoop env running clock sites 0

/-- An in-memory pandas DataFrame: column labels in order, and rows of cells
(cells are opaque strings; CSV round-trips are the identity on them). -/
structure DataFrame where
  cols : List String
  rows : List (List String)
deriving DecidableEq, Repr

/-- The dataset schema produced by `pd.DataFrame(self.data)`: dict insertion
order of `{"url": ..., "price": ..., "timestamp": ...}`. -/
def stdCols : List String := ["url", "price", "timestamp"]

/-- One dataset row for an observation, in schema order. -/
def toRow (o : Observation) : List String := [o.url, o.price, o.timestamp]

/-- `pd.DataFrame(self.data)`: an empty record list yields a frame with no
columns; otherwise columns are `url, price, timestamp` with one row per
record. -/
def pdDataFrame (data : List Observation) : DataFrame :=
  match data with
  | [] => ⟨[], []⟩
  | _ => ⟨stdCols, data.map toRow⟩

/-- Cell lookup by column label, for pandas column alignment; a label the
source frame lacks yields `NaN`. -/
def lookupCell (cols : List String) (row : List String) (c : String) : String :=
  match cols.findIdx? (fun c2 => c2 == c) with
  | some i => row.getD i "NaN"
  | none => "NaN"

/-- Re-shape one row onto a target column list (pandas alignment by label). -/
def alignRow (srcCols : List String) (row : List String) (tgtCols : List String) :
    List String :=
  tgtCols.map (lookupCell srcCols row)

/-- `pd.concat([a, b], ignore_index=True)`: with identical column lists the
rows are stacked; otherwise columns are aligned by label (union, `a` first)
with `NaN` fills. -/
def pdConcat (a b : DataFrame) : DataFrame :=
  if a.cols = b.cols then ⟨a.cols, a.rows ++ b.rows⟩
  else
    let cols := a.cols ++ b.cols.filter (fun c => !(a.cols.contains c))
    ⟨cols, a.rows.map (fun r => alignRow a.cols r cols)
        ++ b.rows.map (fun r => alignRow b.cols r cols)⟩

/-- I/O failures surfacing from `pd.read_csv`: the file is missing
(`FileNotFoundError`), or anything else (permission error, malformed or
unreadable contents, ...). -/
inductive PersistErr where
  | fileNotFound
  | ioError (detail : String)
deriving DecidableEq, Repr

/-- The dataset file between rounds: absent, a readable CSV holding a table,
or a file on which `pd.read_csv` raises something other than
`FileNotFoundError` (unreadable, malformed, permission denied, ...). -/
inductive FileState where
  | absent
  | csv (df : DataFrame)
  | corrupt (detail : String)
deriving DecidableEq, Repr

/-- `pd.read_csv(filename)` as `save_data` observes it. -/
def readCsv : FileState → Except PersistErr DataFrame
  | .absent => .error .fileNotFound
  | .csv df => .ok df
  | .corrupt d => .error (.ioError d)

/-- `PriceScraperBot.save_data`: build a frame from `self.data`, try to read
the existing CSV and prepend it (`pd.concat([df_existing, df])`), treating
only `FileNotFoundError` as "no existing data"; any other read error
propagates out uncaught.  On success the merged frame overwrites the file. -/
def save_data (fs : FileState) (data : List Observation) :
    Except PersistErr FileState :=
  let df := pdDataFrame data
  match readCsv fs with
  | .ok df_existing => .ok (.csv (pdConcat df_existing df))
  | .error .fileNotFound => .ok (.csv df)
  | .error e => .error e

/-- The per-round persistence step of `run_bot` (lines 90-93): call
`save_data` only when the round collected data, otherwise log
"No data scraped this round." and leave the file untouched.  Returns the new
file state and the summary log line; an exception from `save_data`
propagates. -/
def runBotRound (data : List Observation) (fs : FileState) :
    Except PersistErr (FileState × String) :=
  match data with
  | [] => .ok (fs, "No data scraped this round.")
  | _ =>
    match save_data fs data with
    | .ok fs2 => .ok (fs2, "Data saved to scraped_prices.csv")
    | .error e => .error e

/-- What one round of the `while self.running` loop observes: the network,
the `self.running` flag at each in-round check, and the wall clock. -/
structure RoundEnv where
  env : FetchEnv
  running : Nat → Bool
  clock : Nat → String

/-- The Round Result of one loop iteration: what `scrape_all_sites` leaves in
`self.data`. -/
def roundData (sites : List Target) (r : RoundEnv) : List Observation :=
  (scrape_all_sites r.env r.running r.clock sites).1

/-- The `while self.running` loop of `run_bot`, unrolled over the rounds it
executes: each iteration scrapes all sites into a fresh `self.data`, then
persists via `runBotRound`.  An uncaught exception terminates the loop (and
the thread) at once: remaining rounds never run. -/
def run_bot (sites : List Target) : List RoundEnv → FileState → Except PersistErr FileState
  | [], fs => .ok fs
  | r :: rest, fs =>
    match runBotRound (roundData sites r) fs with
    | .ok (fs2, _) => run_bot sites rest fs2
    | .error e => .error e

/-- Duration of one sleep slice, from `time.sleep(10)`. -/
def sleepSliceSeconds : Nat := 10

/-- Number of slices of the inter-round sleep, from
`range(self.interval * 6)` (`interval` is in minutes). -/
def sleepSlices (interval : Nat) : Nat := interval * 6

/-- The inter-round sleep loop of `run_bot` (lines 95-98): before each slice
check `self.running` and break if it is false, else sleep one slice.
Counts the slices actually slept, starting from check index `i` with `n`
slices remaining. -/
def sleepLoop (running : Nat → Bool) : Nat → Nat → Nat
  | 0, _ => 0
  | n + 1, i => if running i then sleepLoop running n (i + 1) + 1 else 0

/-- The scheduler-visible state of the bot: the `self.running` flag, the
number of cycle threads created by `start` and not yet finished, and the
log lines emitted ("active cycles" stands for the `threading.Thread`
objects started on the bot). -/
structure BotState where
  running : Bool
  activeCycles : Nat
  logs : List String
deriving DecidableEq, Repr

/-- `PriceScraperBot.start`: only from not-running does it set the flag,
create and start one new cycle thread, and log; otherwise nothing at all
happens. -/
def start (s : BotState) : BotState :=
  if !s.running then
    { running := true, activeCycles := s.activeCycles + 1,
      logs := s.logs ++ ["Bot started."] }
  else s

/-- `PriceScraperBot.stop`: only from running does it clear the flag and log;
otherwise nothing at all happens. -/
def stop (s : BotState) : BotState :=
  if s.running then { s with running := false, logs := s.logs ++ ["Stopping bot..."] }
  else s

/-! ### Fixtures: concrete documents, environments and targets used to
exhibit concrete behaviors. -/

/-- A fetch that always succeeds with the given document (isolates the
extractor, as the extraction claims do). -/
def constFetch (doc : Doc) : FetchEnv :=
  ⟨fun _ => .ok doc⟩

/-- `<div id="price">19.99</div>` with no `.price` class anywhere. -/
def exampleIdDoc : Doc := [⟨none, some "price", "19.99"⟩]

/-- `<span class="price"> $12.99 </span>`. -/
def exampleClassDoc : Doc := [⟨some "price", none, " $12.99 "⟩]

/-- A network where the URL "good" serves `exampleClassDoc` and every other
URL answers with HTTP 404. -/
def envExample : FetchEnv :=
  ⟨fun u => if u == "good" then .ok exampleClassDoc else .error (.httpStatus 404)⟩

/-- A failing target followed by a succeeding one. -/
def sitesExample : List Target := [⟨"bad", none⟩, ⟨"good", none⟩]

/-- A round over `envExample` with the bot running and a constant clock. -/
def roundEnvExample : RoundEnv := ⟨envExample, fun _ => true, fun _ => "2024-01-01"⟩

/-- A round in which every fetch fails, so no data is scraped. -/
def roundEnvAllFail : RoundEnv :=
  ⟨⟨fun _ => .error (.transport "connection refused")⟩, fun _ => true, fun _ => "2024-01-01"⟩

/-- Concrete observations for witnesses. -/
def obsA : Observation := ⟨"a", "1", "t0"⟩

/-- Second concrete observation. -/
def obsB : Observation := ⟨"b", "2", "t1"⟩

/-- Third concrete observation. -/
def obsC : Observation := ⟨"c", "3", "t2"⟩

/-! ### Helper lemmas -/

/-- `save_data` on a readable dataset with the standard schema appends the
new rows after the existing ones. -/
theorem save_data_append (rows : List (List String)) (data : List Observation)
    (h : data ≠ []) :
    save_data (.csv ⟨stdCols, rows⟩) data
      = .ok (.csv ⟨stdCols, rows ++ data.map toRow⟩) := by
  cases data with
  | nil => exact absurd rfl h
  | cons a as => simp [save_data, readCsv, pdDataFrame, pdConcat]

/-- The default-selector loop returns the first hit of the selector list, in
order. -/
theorem tryDefaults_eq_findSome? (doc : Doc) :
    ∀ sels : List Selector, tryDefaults doc sels = sels.findSome? (selectOne doc) := by
  intro sels
  induction sels with
  | nil => rfl
  | cons s rest ih =>
    simp only [tryDefaults, List.findSome?]
    cases h : selectOne doc s <;> simp [h, ih]

/-- An all-true running flag never breaks the sleep loop. -/
theorem sleepLoop_true : ∀ n i, sleepLoop (fun _ => true) n i = n := by
  intro n
  induction n with
  | zero => intro i; rfl
  | succ n ih => intro i; simp [sleepLoop, ih]

/-- Once the running flag is false at check `k`, the sleep loop started at
check `i ≤ k` sleeps at most `k - i` further slices. -/
theorem sleepLoop_le (running : Nat → Bool) (k : Nat) (hk : running k = false) :
    ∀ n i, i ≤ k → sleepLoop running n i ≤ k - i := by
  intro n
  induction n with
  | zero => intro i _; simp [sleepLoop]
  | succ n ih =>
    intro i hik
    by_cases h : running i = true
    · have hne : i ≠ k := by
        intro he
        rw [he, hk] at h
        cases h
      have hlt : i < k := Nat.lt_of_le_of_ne hik hne
      have hrec := ih (i + 1) hlt
      simp only [sleepLoop, h, if_true]
      omega
    · rw [Bool.not_eq_true] at h
      simp [sleepLoop, h]

/-! ### Claims -/

/-- C1: persisting two successive non-empty Round Results onto an existing
dataset yields exactly `old_dataset_rows ++ round1_rows ++ round2_rows`:
the row count is the sum of both rounds plus the prior rows, round 1 rows
strictly precede round 2 rows, prior rows are untouched, and the column
order `url, price, timestamp` is unchanged across both merges. -/
theorem c1_two_round_merge (old r1 r2 : List Observation)
    (h1 : r1 ≠ []) (h2 : r2 ≠ []) :
    save_data (.csv ⟨stdCols, old.map toRow⟩) r1
      = .ok (.csv ⟨stdCols, (old ++ r1).map toRow⟩) ∧
    save_data (.csv ⟨stdCols, (old ++ r1).map toRow⟩) r2
      = .ok (.csv ⟨stdCols, (old ++ r1 ++ r2).map toRow⟩) ∧
    ((old ++ r1 ++ r2).map toRow).length = old.length + r1.length + r2.length := by
  refine ⟨?_, ?_, ?_⟩
  · rw [List.map_append]
    exact save_data_append (old.map toRow) r1 h1
  · have h := save_data_append ((old ++ r1).map toRow) r2 h2
    rw [← List.map_append] at h
    exact h
  · simp [Nat.add_assoc]

/-- Witness for C1 at a concrete prior dataset and two concrete rounds. -/
theorem c1_two_round_merge_witness :
    save_data (.csv ⟨stdCols, [obsA].map toRow⟩) [obsB]
      = .ok (.csv ⟨stdCols, ([obsA] ++ [obsB]).map toRow⟩) ∧
    save_data (.csv ⟨stdCols, ([obsA] ++ [obsB]).map toRow⟩) [obsC]
      = .ok (.csv ⟨stdCols, ([obsA] ++ [obsB] ++ [obsC]).map toRow⟩) ∧
    (([obsA] ++ [obsB] ++ [obsC]).map toRow).length
      = [obsA].length + [obsB].length + [obsC].length :=
  c1_two_round_merge [obsA] [obsB] [obsC] (by decide) (by decide)

/-- C4: persisting a non-empty Round Result when the dataset file is absent,
or holds an empty dataset, succeeds and writes exactly the round rows under
the stable column order `url, price, timestamp`. -/
theorem c4_missing_treated_as_empty (r : List Observation) (h : r ≠ []) :
    save_data .absent r = .ok (.csv ⟨stdCols, r.map toRow⟩) ∧
    save_data (.csv ⟨stdCols, []⟩) r = .ok (.csv ⟨stdCols, r.map toRow⟩) := by
  constructor
  · cases r with
    | nil => exact absurd rfl h
    | cons a as => simp [save_data, readCsv, pdDataFrame]
  · have := save_data_append [] r h
    simpa using this

/-- Witness for C4 with a concrete one-row round. -/
theorem c4_missing_treated_as_empty_witness :
    save_data .absent [(⟨"u", "p", "t"⟩ : Observation)]
      = .ok (.csv ⟨stdCols, [(⟨"u", "p", "t"⟩ : Observation)].map toRow⟩) ∧
    save_data (.csv ⟨stdCols, []⟩) [(⟨"u", "p", "t"⟩ : Observation)]
      = .ok (.csv ⟨stdCols, [(⟨"u", "p", "t"⟩ : Observation)].map toRow⟩) :=
  c4_missing_treated_as_empty [⟨"u", "p", "t"⟩] (by decide)

/-- C7: a round that scraped nothing performs no persistence: the dataset
file is left exactly as it was (whatever its state), the no-data summary is
logged, and the cycle continues with the remaining rounds from the unchanged
file. -/
theorem c7_empty_round_noop (fs : FileState) (sites : List Target)
    (r : RoundEnv) (rest : List RoundEnv) (h : roundData sites r = []) :
    runBotRound (roundData sites r) fs = .ok (fs, "No data scraped this round.") ∧
    run_bot sites (r :: rest) fs = run_bot sites rest fs := by
  rw [h]
  exact ⟨rfl, by simp [run_bot, h, runBotRound]⟩

/-- Witness for C7: a round where every fetch fails leaves a concrete
dataset file untouched. -/
theorem c7_empty_round_noop_witness :
    runBotRound (roundData sitesExample roundEnvAllFail)
        (.csv ⟨stdCols, [["a", "1", "t0"]]⟩)
      = .ok (.csv ⟨stdCols, [["a", "1", "t0"]]⟩, "No data scraped this round.") ∧
    run_bot sitesExample (roundEnvAllFail :: []) (.csv ⟨stdCols, [["a", "1", "t0"]]⟩)
      = run_bot sitesExample [] (.csv ⟨stdCols, [["a", "1", "t0"]]⟩) :=
  c7_empty_round_noop (.csv ⟨stdCols, [["a", "1", "t0"]]⟩) sitesExample
    roundEnvAllFail [] rfl

/-- C10: over any sequence of rounds executed by one running cycle, each
persist call appends exactly the observations of the round that just
completed (the in-memory buffer is rebuilt from empty each round by
`scrape_all_sites`), so the final dataset is the prior rows followed by each
round result exactly once, in round order. -/
theorem c10_each_round_appended_once (sites : List Target)
    (rounds : List RoundEnv) (old : List Observation) :
    run_bot sites rounds (.csv ⟨stdCols, old.map toRow⟩)
      = .ok (.csv ⟨stdCols, (old ++ (rounds.map (roundData sites)).flatten).map toRow⟩) := by
  induction rounds generalizing old with
  | nil => simp [run_bot]
  | cons r rest ih =>
    cases h : roundData sites r with
    | nil =>
      have step : run_bot sites (r :: rest) (.csv ⟨stdCols, old.map toRow⟩)
          = run_bot sites rest (.csv ⟨stdCols, old.map toRow⟩) := by
        simp [run_bot, h, runBotRound]
      rw [step, ih old]
      simp [h]
    | cons a as =>
      have hne : roundData sites r ≠ [] := by rw [h]; exact List.cons_ne_nil a as
      have hsave := save_data_append (old.map toRow) (roundData sites r) hne
      rw [← List.map_append] at hsave
      have step : run_bot sites (r :: rest) (.csv ⟨stdCols, old.map toRow⟩)
          = run_bot sites rest (.csv ⟨stdCols, (old ++ roundData sites r).map toRow⟩) := by
        cases hd : roundData sites r with
        | nil => rw [hd] at h; cases h
        | cons b bs =>
          rw [hd] at hsave
          simp [run_bot, runBotRound, hd, hsave]
      rw [step, ih (old ++ roundData sites r)]
      simp [List.append_assoc]

/-- A document with neither class nor id price markers. -/
def exampleNoPriceDoc : Doc := [⟨some "title", some "header", "x"⟩]

/-- Spec-side view of one target: the `(url, price)` entry it contributes to
the Round Result when its scrape succeeds, nothing when it fails. -/
def succEntry (env : FetchEnv) (t : Target) : Option (String × String) :=
  match get_price_from_url env t.url t.selector with
  | .ok p => some (t.url, p)
  | .error _ => none

/-- While the bot keeps running, the scrape loop from any start index yields
the successful targets in order (failed ones contribute no entry) and logs
every failure. -/
theorem scrapeLoop_spec (env : FetchEnv) (running : Nat → Bool) (clock : Nat → String)
    (hrun : ∀ i, running i = true) :
    ∀ (sites : List Target) (i : Nat),
      ((scrapeLoop env running clock sites i).1.map (fun o => (o.url, o.price))
        = sites.filterMap (succEntry env)) ∧
      (∀ t ∈ sites, ∀ e, get_price_from_url env t.url t.selector = .error e →
        ("Error scraping " ++ t.url ++ ": " ++ errMsg e)
          ∈ (scrapeLoop env running clock sites i).2) := by
  intro sites
  induction sites with
  | nil =>
    intro i
    exact ⟨rfl, fun t ht => absurd ht (List.not_mem_nil t)⟩
  | cons t rest ih =>
    intro i
    have hr : running i = true := hrun i
    constructor
    · cases hget : get_price_from_url env t.url t.selector with
      | ok p => simp [scrapeLoop, hr, hget, succEntry, (ih (i + 1)).1]
      | error e => simp [scrapeLoop, hr, hget, succEntry, (ih (i + 1)).1]
    · intro t2 ht2 e he
      rcases List.mem_cons.mp ht2 with h2 | h2
      · subst h2
        cases hget : get_price_from_url env t2.url t2.selector with
        | ok p => rw [hget] at he; cases he
        | error e0 =>
          rw [hget] at he
          injection he with he0
          subst he0
          simp [scrapeLoop, hr, hget]
      · cases hget : get_price_from_url env t.url t.selector with
        | ok p =>
          have hm := (ih (i + 1)).2 t2 h2 e he
          simp only [scrapeLoop, hr, hget, Bool.not_true, Bool.false_eq_true,
            if_false]
          exact List.mem_cons_of_mem _ (List.mem_cons_of_mem _ hm)
        | error e0 =>
          have hm := (ih (i + 1)).2 t2 h2 e he
          simp only [scrapeLoop, hr, hget, Bool.not_true, Bool.false_eq_true,
            if_false]
          exact List.mem_cons_of_mem _ (List.mem_cons_of_mem _ hm)

/-- C2: while the bot is running, a failing target (fetch error, HTTP error
status, or selector failure) is logged and does not stop the round: the
round function is total (failures are caught), the Round Result lists the
successful targets in target order, and failed targets contribute no
entry. -/
theorem c2_failures_isolated (env : FetchEnv) (running : Nat → Bool)
    (clock : Nat → String) (sites : List Target) (hrun : ∀ i, running i = true) :
    ((scrape_all_sites env running clock sites).1.map (fun o => (o.url, o.price))
      = sites.filterMap (succEntry env)) ∧
    (∀ t ∈ sites, ∀ e, get_price_from_url env t.url t.selector = .error e →
      ("Error scraping " ++ t.url ++ ": " ++ errMsg e)
        ∈ (scrape_all_sites env running clock sites).2) :=
  scrapeLoop_spec env running clock hrun sites 0

/-- Witness for C2: with one 404-failing target before one succeeding
target, the Round Result is exactly the succeeding entry and the failure is
logged. -/
theorem c2_failures_isolated_witness :
    ((scrape_all_sites envExample (fun _ => true) (fun _ => "2024-01-01") sitesExample).1.map
        (fun o => (o.url, o.price))
      = sitesExample.filterMap (succEntry envExample)) ∧
    ("Error scraping " ++ "bad" ++ ": " ++ errMsg (.fetch (.httpStatus 404)))
      ∈ (scrape_all_sites envExample (fun _ => true) (fun _ => "2024-01-01") sitesExample).2 := by
  have h := c2_failures_isolated envExample (fun _ => true) (fun _ => "2024-01-01")
    sitesExample (fun _ => rfl)
  exact ⟨h.1, h.2 ⟨"bad", none⟩ (by decide) (.fetch (.httpStatus 404)) rfl⟩

/-- C3 counterexample: with the dataset file unreadable (permission denied)
and a round that did scrape data, the cycle terminates with the uncaught
read error instead of reporting it and retrying on the next round: the
second scheduled round is never reached. -/
theorem c3_counterexample_io_error_kills_cycle :
    run_bot sitesExample [roundEnvExample, roundEnvExample] (.corrupt "permission denied")
      = .error (.ioError "permission denied") := rfl

/-- C3 amended: only a missing dataset file is tolerated by `save_data`
(treated as an empty dataset); any other failure while loading the existing
dataset propagates out of `save_data` uncaught and terminates the cycle at
that round — there is no reported-and-continue behavior and no retry on a
later round. -/
theorem c3_amended_io_error_uncaught (d : String) (data : List Observation)
    (sites : List Target) (r : RoundEnv) (rest : List RoundEnv)
    (hdata : roundData sites r ≠ []) :
    save_data (.corrupt d) data = .error (.ioError d) ∧
    run_bot sites (r :: rest) (.corrupt d) = .error (.ioError d) := by
  constructor
  · rfl
  · cases h : roundData sites r with
    | nil => exact absurd h hdata
    | cons a as => simp [run_bot, runBotRound, h, save_data, readCsv]

/-- Witness for the amended C3 at a concrete unreadable file and a concrete
data-yielding round. -/
theorem c3_amended_io_error_uncaught_witness :
    roundData sitesExample roundEnvExample ≠ [] ∧
    save_data (.corrupt "disk full") [obsA] = .error (.ioError "disk full") ∧
    run_bot sitesExample (roundEnvExample :: []) (.corrupt "disk full")
      = .error (.ioError "disk full") := by
  have h := c3_amended_io_error_uncaught "disk full" [obsA] sitesExample
    roundEnvExample [] (by decide)
  exact ⟨by decide, h.1, h.2⟩

/-- C5: with no selector supplied, extraction tries exactly the ordered
default list `.price`, `#price`, `[class*="price"]`, `[id*="price"]`,
returns the trimmed text of the element found by the first selector that
matches, and fails with the no-default-match error when none of the four
matches; the document `<div id="price">19.99</div>` with no `.price` class
yields `"19.99"` via the second default selector. -/
theorem c5_default_selector_fallback (doc : Doc) (url : String) :
    common_selectors
      = [.classIs "price", .idIs "price", .classContains "price", .idContains "price"] ∧
    (∀ el, common_selectors.findSome? (selectOne doc) = some el →
      get_price_from_url (constFetch doc) url none = .ok (getTextStrip el)) ∧
    ((∀ sel ∈ common_selectors, selectOne doc sel = none) →
      get_price_from_url (constFetch doc) url none = .error .noDefaultMatch) ∧
    (selectOne exampleIdDoc (.classIs "price") = none ∧
      selectOne exampleIdDoc (.idIs "price") = some ⟨none, some "price", "19.99"⟩ ∧
      get_price_from_url (constFetch exampleIdDoc) url none = .ok "19.99") := by
  refine ⟨rfl, ?_, ?_, rfl, rfl, rfl⟩
  · intro el h
    simp [get_price_from_url, constFetch, tryDefaults_eq_findSome?, h]
  · intro hall
    have hnone : common_selectors.findSome? (selectOne doc) = none := by
      rw [List.findSome?_eq_none_iff]
      exact hall
    simp [get_price_from_url, constFetch, tryDefaults_eq_findSome?, hnone]

/-- Witness for C5: the first-hit case on the id-only document, and the
no-match case on a document with no price markers. -/
theorem c5_default_selector_fallback_witness :
    common_selectors.findSome? (selectOne exampleIdDoc)
      = some ⟨none, some "price", "19.99"⟩ ∧
    get_price_from_url (constFetch exampleIdDoc) "u" none
      = .ok (getTextStrip ⟨none, some "price", "19.99"⟩) ∧
    (∀ sel ∈ common_selectors, selectOne exampleNoPriceDoc sel = none) ∧
    get_price_from_url (constFetch exampleNoPriceDoc) "u" none
      = .error .noDefaultMatch := by
  refine ⟨rfl, (c5_default_selector_fallback exampleIdDoc "u").2.1 _ rfl, by decide,
    (c5_default_selector_fallback exampleNoPriceDoc "u").2.2.1 (by decide)⟩

/-- C6: with an explicitly supplied selector, extraction returns the matched
element's text trimmed of leading and trailing whitespace when the selector
matches, and fails with the not-found error carrying that selector when it
matches nothing; `<span class="price"> $12.99 </span>` under selector
`.price` yields `"$12.99"`. -/
theorem c6_explicit_selector (doc : Doc) (url : String) (sel : Selector) :
    (∀ el, selectOne doc sel = some el →
      get_price_from_url (constFetch doc) url (some sel) = .ok (strTrim el.text)) ∧
    (selectOne doc sel = none →
      get_price_from_url (constFetch doc) url (some sel) = .error (.notFound sel)) ∧
    get_price_from_url (constFetch exampleClassDoc) url (some (.classIs "price"))
      = .ok "$12.99" := by
  refine ⟨?_, ?_, rfl⟩
  · intro el h
    simp [get_price_from_url, constFetch, h, getTextStrip]
  · intro h
    simp [get_price_from_url, constFetch, h]

/-- Witness for C6: the matching case on the example span, and the
non-matching case with an unused id selector. -/
theorem c6_explicit_selector_witness :
    selectOne exampleClassDoc (.classIs "price") = some ⟨some "price", none, " $12.99 "⟩ ∧
    get_price_from_url (constFetch exampleClassDoc) "u" (some (.classIs "price"))
      = .ok (strTrim " $12.99 ") ∧
    selectOne exampleClassDoc (.idIs "nope") = none ∧
    get_price_from_url (constFetch exampleClassDoc) "u" (some (.idIs "nope"))
      = .error (.notFound (.idIs "nope")) :=
  ⟨rfl,
    (c6_explicit_selector exampleClassDoc "u" (.classIs "price")).1
      ⟨some "price", none, " $12.99 "⟩ rfl,
    rfl,
    (c6_explicit_selector exampleClassDoc "u" (.idIs "nope")).2.1 rfl⟩

/-- C8: the inter-round sleep is decomposed into fixed 10-second slices,
`interval * 6` of them (so the full sleep is `interval` minutes), the
running flag is checked before every slice, and a stop that is visible from
check `j + 1` onward (a stop issued during slice `j`) bounds the slices
slept by `j + 1` — the loop exits within one slice of the stop, not after
the full remaining interval. -/
theorem c8_stop_honored_within_one_slice :
    sleepSliceSeconds = 10 ∧
    (∀ interval, sleepSlices interval = interval * 6 ∧
      sleepSlices interval * sleepSliceSeconds = interval * 60 ∧
      sleepLoop (fun _ => true) (sleepSlices interval) 0 = sleepSlices interval) ∧
    (∀ running : Nat → Bool, ∀ interval j, running (j + 1) = false →
      sleepLoop running (sleepSlices interval) 0 ≤ j + 1) := by
  refine ⟨rfl, fun interval => ⟨rfl, ?_, sleepLoop_true _ 0⟩, ?_⟩
  · simp only [sleepSlices, sleepSliceSeconds]
    omega
  · intro running interval j h
    have := sleepLoop_le running (j + 1) h (sleepSlices interval) 0 (Nat.zero_le _)
    simpa using this

/-- Witness for C8: a flag that is stopped from check 1 onward makes a
60-minute sleep exit after at most one slice. -/
theorem c8_stop_honored_within_one_slice_witness :
    (fun i => i == 0) (0 + 1) = false ∧
    sleepLoop (fun i => i == 0) (sleepSlices 60) 0 ≤ 0 + 1 :=
  ⟨rfl, c8_stop_honored_within_one_slice.2.2 (fun i => i == 0) 60 0 rfl⟩

/-- C9: `start` while already running is a no-op (the whole Bot State is
unchanged and no new cycle thread is created), so two `start` calls without
an intervening `stop` create exactly one cycle; symmetrically `stop` while
idle is a no-op. -/
theorem c9_start_stop_lifecycle (s : BotState) :
    start (start s) = start s ∧
    (s.running = true → start s = s) ∧
    (s.running = false →
      (start s).running = true ∧ (start (start s)).activeCycles = s.activeCycles + 1) ∧
    (s.running = false → stop s = s) := by
  refine ⟨?_, ?_, ?_, ?_⟩
  · by_cases h : s.running
    · simp [start, h]
    · simp [start, h]
  · intro h
    simp [start, h]
  · intro h
    simp [start, h]
  · intro h
    simp [stop, h]

/-- Witness for C9: from the freshly constructed idle state, two starts
create exactly one cycle and a stop is a no-op. -/
theorem c9_start_stop_lifecycle_witness :
    (⟨false, 0, []⟩ : BotState).running = false ∧
    (start (start ⟨false, 0, []⟩)).activeCycles = (⟨false, 0, []⟩ : BotState).activeCycles + 1 ∧
    stop (⟨false, 0, []⟩ : BotState) = ⟨false, 0, []⟩ :=
  ⟨rfl, ((c9_start_stop_lifecycle ⟨false, 0, []⟩).2.2.1 rfl).2,
    (c9_start_stop_lifecycle ⟨false, 0, []⟩).2.2.2 rfl⟩

end PriceScraper
